import Mathlib

/-!
Verification development for the Kratos detection-and-triage pipeline.

The definitions below are a shallow embedding of the Python sources of the
repository (src/Kratos28_app.py and its sibling scripts).  Machine numbers
are modelled as Int (post-normalization integer columns) and Rat
(coordinates, anomaly scores); fallible parses are modelled as Option.
-/

namespace Kratos

/-- Severity tiers used by the classifier; the source uses the strings
"Low", "Medium", "High" (src/Kratos28_app.py line 113 keys). -/
inductive Severity where
  | Low
  | Medium
  | High
deriving DecidableEq, Repr

/-- Numeric rank of a severity tier under the order Low < Medium < High. -/
def Severity.rank : Severity → Nat
  | .Low => 0
  | .Medium => 1
  | .High => 2

/-- Embedding of classify_severity, src/Kratos28_app.py lines 104-110:
if failed_logins > 20 and bytes_sent > 5000 return High, elif
failed_logins > 5 or bytes_sent > 3000 return Medium, else return Low. -/
def classify_severity (bytes_sent failed_logins : Int) : Severity :=
  if failed_logins > 20 ∧ bytes_sent > 5000 then Severity.High
  else if failed_logins > 5 ∨ bytes_sent > 3000 then Severity.Medium
  else Severity.Low

/-- One normalized log row: timestamp in minutes (pd.Timestamp after
pd.to_datetime), the two id columns, and the two integer feature columns
after numeric normalization (src/Kratos28_app.py lines 86-94). -/
structure LogRow where
  timestamp : Int
  source_ip : String
  dest_ip : String
  bytes_sent : Int
  failed_logins : Int
deriving DecidableEq, Repr

/-- Embedding of alerts.apply(classify_severity, axis=1),
src/Kratos28_app.py line 112: each alert row is paired with the severity
computed from its own two feature fields. -/
def assign_severity (alerts : List LogRow) : List (LogRow × Severity) :=
  alerts.map (fun r => (r, classify_severity r.bytes_sent r.failed_logins))

/-- Embedding of the numeric normalization of one cell,
src/Kratos28_app.py lines 93-94: pd.to_numeric(col, errors="coerce")
yields the parsed value (some n, after astype(int) truncation) or NaN
(none) for an unparseable cell; fillna(0) then replaces NaN by 0 and the
parsed value passes through unchanged. -/
def normalize_numeric (v : Option Int) : Int :=
  v.getD 0

/-- Start of the hour window at a playback position,
src/Kratos28_app.py line 180: current_start = t_min + timedelta(hours=pos).
Time is in minutes, one tick is one hour = 60 minutes. -/
def current_start (t_min pos : Int) : Int :=
  t_min + 60 * pos

/-- End of the hour window, src/Kratos28_app.py line 181:
current_end = current_start + timedelta(hours=1). -/
def current_end (t_min pos : Int) : Int :=
  current_start t_min pos + 60

/-- Embedding of the visible-set query, src/Kratos28_app.py line 182:
visible_alerts = alerts[(timestamp >= current_start) & (timestamp < current_end)]. -/
def visible_alerts (alerts : List LogRow) (t_min pos : Int) : List LogRow :=
  alerts.filter (fun a =>
    decide (current_start t_min pos ≤ a.timestamp) &&
    decide (a.timestamp < current_end t_min pos))

/-- Navigation operations on the playback position: the guarded
auto-advance, the slider scrub (whose widget clamps the requested value to
the slider range) and the reset button. -/
inductive NavOp where
  | advance
  | scrub (target : Int)
  | reset

/-- One navigation step on hour_pos, src/Kratos27_app.py lines 170-178 and
src/Kratos20_app.py lines 141-152, 160-161: auto-advance adds 1 only while
hour_pos < total_hours; the slider constrains a scrub target to
[0, max(total_hours, 0)]; the reset button sets hour_pos to 0. -/
def nav_step (total : Int) (pos : Int) : NavOp → Int
  | NavOp.advance => if pos < total then pos + 1 else pos
  | NavOp.scrub t => max 0 (min t (max total 0))
  | NavOp.reset => 0

/-- Running a sequence of navigation operations from the initial
position 0 (src/Kratos27_app.py lines 170-171: hour_pos starts at 0). -/
def run_nav (total : Int) (ops : List NavOp) : Int :=
  ops.foldl (nav_step total) 0

/-- Outcome of one external geo lookup, as seen by real_geolocate
(src/Kratos27_app.py lines 142-153): the request may raise inside the try
block (timeout, network error, malformed JSON), the JSON may lack the
"loc" field, the "loc" field may fail float parsing (also a raise inside
the try block), or it may parse to a coordinate pair. -/
inductive LookupResult where
  | netError
  | noLoc
  | badLoc
  | loc (lat lon : ℚ)

/-- True on every outcome that is a lookup failure (anything but a
successfully parsed coordinate pair). -/
def LookupResult.isFailure : LookupResult → Bool
  | LookupResult.loc _ _ => false
  | _ => true

/-- Whether the second character sequence starts the first one;
structural model of str.startswith over the characters of the strings. -/
def starts_with_chars : List Char → List Char → Bool
  | _, [] => true
  | [], _ :: _ => false
  | c :: s, d :: p => c == d && starts_with_chars s p

/-- The private-range test of src/Kratos27_app.py line 135:
ip.startswith(("10.", "192.168.", "172.16.")). -/
def is_private_ip (ip : String) : Bool :=
  starts_with_chars ip.data "10.".data ||
  starts_with_chars ip.data "192.168.".data ||
  starts_with_chars ip.data "172.16.".data

/-- The static fallback table STATIC_IP_MAP of src/Kratos27_app.py
lines 121-130. -/
def STATIC_IP_MAP : List (String × ℚ × ℚ) :=
  [("8.8.8.8", 37.3861, -122.0839),
   ("1.1.1.1", -33.8688, 151.2093),
   ("77.88.55.77", 55.7512, 37.6184),
   ("185.199.110.153", 52.5200, 13.4050),
   ("41.90.5.2", -1.2921, 36.8219),
   ("200.89.75.5", -34.6037, -58.3816),
   ("103.21.244.0", 28.6139, 77.2090),
   ("196.25.1.200", -26.2041, 28.0473)]

/-- Embedding of real_geolocate, src/Kratos27_app.py lines 132-153:
private ranges return (0,0) before any lookup; next the static table is
consulted; otherwise the external lookup outcome decides: a parsed "loc"
pair is returned, every other outcome (the except arm and the missing-loc
arm) returns (0,0). -/
def real_geolocate (ip : String) (resp : LookupResult) : ℚ × ℚ :=
  if is_private_ip ip then (0, 0)
  else
    match STATIC_IP_MAP.lookup ip with
    | some c => c
    | none =>
      match resp with
      | LookupResult.loc lat lon => (lat, lon)
      | _ => (0, 0)

/-- One enriched alert row as handed to the map tab: the log fields plus
severity and the enriched coordinates. -/
structure AlertRow where
  timestamp : Int
  source_ip : String
  dest_ip : String
  bytes_sent : Int
  failed_logins : Int
  severity : Severity
  lat : ℚ
  lon : ℚ
deriving DecidableEq, Repr

/-- Coordinates that receive a CircleMarker in the marker loop,
src/Kratos28_app.py lines 209-219 and src/Kratos27_app.py lines 212-222:
a marker is drawn only when lat != 0 and lon != 0. -/
def marker_points (vis : List AlertRow) : List (ℚ × ℚ) :=
  (vis.filter (fun r => decide (r.lat ≠ 0) && decide (r.lon ≠ 0))).map
    (fun r => (r.lat, r.lon))

/-- Heatmap input of src/Kratos27_app.py line 225:
visible_alerts[(lat != 0) & (lon != 0)][["lat","lon"]].values.tolist(). -/
def heat_points_27 (vis : List AlertRow) : List (ℚ × ℚ) :=
  (vis.filter (fun r => decide (r.lat ≠ 0) && decide (r.lon ≠ 0))).map
    (fun r => (r.lat, r.lon))

/-- Heatmap input of src/Kratos28_app.py line 221:
visible_alerts[["lat","lon"]].dropna().values.tolist().  dropna() removes
only missing values; coordinates produced by real_geolocate are always
present, so every visible alert's pair is kept, the (0,0) sentinel
included. -/
def heat_points_28 (vis : List AlertRow) : List (ℚ × ℚ) :=
  vis.map (fun r => (r.lat, r.lon))

/-- A visible alert whose coordinates are the (0,0) sentinel (a private
source address resolves to (0,0) by real_geolocate). -/
def sentinel_alert : AlertRow :=
  { timestamp := 0, source_ip := "10.0.0.7", dest_ip := "10.0.0.100",
    bytes_sent := 6000, failed_logins := 30, severity := Severity.High,
    lat := 0, lon := 0 }

/-- The required column set of src/Kratos28_app.py line 80. -/
def required_cols : List String :=
  ["timestamp", "source_ip", "dest_ip", "bytes_sent", "failed_logins"]

/-- A raw tabular batch: its column names and its rows (each row a list of
cells keyed by column name).  Extra columns are simply further entries of
cols. -/
structure RawBatch where
  cols : List String
  rows : List (List (String × String))
deriving DecidableEq, Repr

/-- Embedding of the validation gate, src/Kratos28_app.py lines 80-83:
if required_cols is not a subset of the batch columns the app reports the
error and st.stop() aborts the run (none); otherwise execution continues
with the batch object untouched (some b). -/
def validate (b : RawBatch) : Option RawBatch :=
  if required_cols.all (fun c => b.cols.contains c) then some b else none

/-- numpy percentile with linear interpolation: sort ascending, take the
fractional index q/100 * (n-1) and interpolate between the entry at its
floor and the next entry (when the fractional index is integral the
interpolation weight is zero, so this agrees with interpolating towards
the ceiling entry).  Used by IsolationForest to turn the contamination
fraction into its decision offset. -/
def np_percentile (l : List ℚ) (q : ℚ) : ℚ :=
  let a := l.insertionSort (fun x y => x ≤ y)
  let h : ℚ := q * ((a.length : ℚ) - 1) / 100
  let lo : Nat := (⌊h⌋).toNat
  let alo := a.getD lo 0
  let ahi := a.getD (lo + 1) 0
  alo + (h - (lo : ℚ)) * (ahi - alo)

/-- The thresholding step of IsolationForest.fit_predict as invoked at
src/Kratos28_app.py lines 99-100, for an abstract per-row score list:
sklearn sets offset_ to the contamination-percentile of the training
scores and predicts -1 (outlier) exactly where score - offset_ < 0,
else 1 (inlier). -/
def iforest_labels (scores : List ℚ) (c : ℚ) : List Int :=
  let offset := np_percentile scores (100 * c)
  scores.map (fun s => if s - offset < 0 then -1 else 1)

/-- Embedding of alerts = logs[logs["score"] == -1],
src/Kratos28_app.py line 101: the rows whose label is -1. -/
def alerts_of (rows : List LogRow) (labels : List Int) : List LogRow :=
  ((rows.zip labels).filter (fun p => decide (p.2 = -1))).map Prod.fst

/-- A sample normalized row used to instantiate universally quantified
theorems. -/
def sample_row : LogRow :=
  { timestamp := 0, source_ip := "8.8.8.8", dest_ip := "10.0.0.100",
    bytes_sent := 120, failed_logins := 1 }

/-- A row inside the injected-anomaly ranges whose features sit at the low
ends: bytes_sent = 5000, failed_logins = 10. -/
def injected_low_row : LogRow :=
  { timestamp := 0, source_ip := "8.8.8.8", dest_ip := "10.0.0.100",
    bytes_sent := 5000, failed_logins := 10 }

/-- A companion row for a two-row batch, far from the injected ranges. -/
def background_row : LogRow :=
  { timestamp := 1, source_ip := "1.1.1.1", dest_ip := "10.0.0.200",
    bytes_sent := 400, failed_logins := 60 }

/-- A row whose timestamp sits exactly at the end of the first hour
window when t_min = 0. -/
def boundary_row : LogRow :=
  { timestamp := 60, source_ip := "8.8.8.8", dest_ip := "10.0.0.100",
    bytes_sent := 700, failed_logins := 2 }

/-- A batch carrying all five required columns plus an extra one. -/
def good_batch : RawBatch :=
  { cols := ["timestamp", "source_ip", "dest_ip", "bytes_sent",
             "failed_logins", "extra_col"],
    rows := [] }

/-- The contamination percentile of a single score is that score itself,
whatever the percentile level: the sorted list has one entry and the
fractional index is zero. -/
theorem np_percentile_singleton (s q : ℚ) : np_percentile [s] q = s := by
  simp [np_percentile, List.insertionSort, List.orderedInsert, List.getD]

/-- C2: the severity classifier is a total function of the feature pair
computing High exactly on failed_logins > 20 and bytes_sent > 5000,
otherwise Medium exactly on failed_logins > 5 or bytes_sent > 3000,
otherwise Low; and the batch severity assignment gives two rows with the
same feature pair the same severity, whatever batches they sit in. -/
theorem classify_severity_spec :
    (∀ b f : Int, 0 ≤ b → 0 ≤ f →
      ((classify_severity b f = Severity.High ↔ f > 20 ∧ b > 5000) ∧
       (classify_severity b f = Severity.Medium ↔
         ¬(f > 20 ∧ b > 5000) ∧ (f > 5 ∨ b > 3000)) ∧
       (classify_severity b f = Severity.Low ↔
         ¬(f > 20 ∧ b > 5000) ∧ ¬(f > 5 ∨ b > 3000)))) ∧
    (∀ (batch₁ batch₂ : List LogRow) (r₁ r₂ : LogRow) (s₁ s₂ : Severity),
      (r₁, s₁) ∈ assign_severity batch₁ → (r₂, s₂) ∈ assign_severity batch₂ →
      r₁.bytes_sent = r₂.bytes_sent → r₁.failed_logins = r₂.failed_logins →
      s₁ = s₂) := by
  constructor
  · intro b f _ _
    unfold classify_severity
    split_ifs with h1 h2 <;> simp_all
  · intro batch₁ batch₂ r₁ r₂ s₁ s₂ h₁ h₂ hb hf
    simp only [assign_severity, List.mem_map] at h₁ h₂
    obtain ⟨a₁, -, ha₁⟩ := h₁
    obtain ⟨a₂, -, ha₂⟩ := h₂
    obtain ⟨rfl, rfl⟩ := Prod.mk.inj ha₁
    obtain ⟨rfl, rfl⟩ := Prod.mk.inj ha₂
    rw [hb, hf]

/-- Witness for C2 at a concrete feature pair. -/
theorem classify_severity_spec_witness :
    classify_severity 6000 25 = Severity.High :=
  ((classify_severity_spec.1 6000 25 (by decide) (by decide)).1).mpr (by decide)

/-- C10: the severity classifier is monotone in both features under the
order Low < Medium < High (encoded by Severity.rank). -/
theorem classify_severity_monotone :
    ∀ b₁ f₁ b₂ f₂ : Int, 0 ≤ b₁ → 0 ≤ f₁ → b₁ ≤ b₂ → f₁ ≤ f₂ →
    (classify_severity b₁ f₁).rank ≤ (classify_severity b₂ f₂).rank := by
  intro b₁ f₁ b₂ f₂ _ _ hb hf
  unfold classify_severity
  split_ifs <;> simp_all [Severity.rank] <;> omega

/-- Witness for C10 at a concrete pair of feature pairs. -/
theorem classify_severity_monotone_witness :
    (classify_severity 100 1).rank ≤ (classify_severity 6000 25).rank :=
  classify_severity_monotone 100 1 6000 25 (by decide) (by decide)
    (by decide) (by decide)

/-- C3 counterexample: a parseable negative cell is not clamped to zero by
the normalization of src/Kratos28_app.py lines 93-94; fillna(0) replaces
only unparseable (NaN) cells, so -100 survives and the normalized column
is not non-negative. -/
theorem normalize_negative_counterexample :
    normalize_numeric (some (-100)) = -100 ∧
    ¬ 0 ≤ normalize_numeric (some (-100)) := by decide

/-- C3 amended: after normalization an unparseable cell is zero and a
parseable cell keeps its parsed integer value unchanged, negative values
included. -/
theorem normalize_numeric_spec :
    normalize_numeric none = 0 ∧ ∀ n : Int, normalize_numeric (some n) = n :=
  ⟨rfl, fun _ => rfl⟩

/-- C4: the visible-set query returns exactly the alerts whose timestamp
lies in the half-open window [current_start, current_end); an alert
exactly at current_end is excluded from the current window and belongs to
the window at the next position. -/
theorem visible_alerts_window_spec :
    ∀ (alerts : List LogRow) (t_min pos : Int) (a : LogRow),
    (a ∈ visible_alerts alerts t_min pos ↔
      a ∈ alerts ∧ current_start t_min pos ≤ a.timestamp ∧
        a.timestamp < current_end t_min pos) ∧
    (a.timestamp = current_end t_min pos →
      a ∉ visible_alerts alerts t_min pos ∧
      (a ∈ alerts → a ∈ visible_alerts alerts t_min (pos + 1))) := by
  intro alerts t_min pos a
  constructor
  · simp [visible_alerts, List.mem_filter]
  · intro h
    constructor
    · simp only [visible_alerts, List.mem_filter, Bool.and_eq_true,
        decide_eq_true_eq, current_start, current_end] at *
      rintro ⟨-, -, hlt⟩
      omega
    · intro ha
      refine List.mem_filter.mpr ⟨ha, ?_⟩
      simp only [Bool.and_eq_true, decide_eq_true_eq, current_start,
        current_end] at *
      omega

/-- Witness for C4: a row at the window boundary is excluded at the
current position and included at the next one. -/
theorem visible_alerts_window_spec_witness :
    boundary_row ∉ visible_alerts [boundary_row] 0 0 ∧
    boundary_row ∈ visible_alerts [boundary_row] 0 1 :=
  ⟨((visible_alerts_window_spec [boundary_row] 0 0 boundary_row).2
      (by decide)).1,
   ((visible_alerts_window_spec [boundary_row] 0 0 boundary_row).2
      (by decide)).2 (by decide)⟩

/-- One navigation step keeps the position inside [0, total]. -/
theorem nav_step_bounds (total pos : Int) (op : NavOp)
    (htotal : 0 ≤ total) (h0 : 0 ≤ pos) (h1 : pos ≤ total) :
    0 ≤ nav_step total pos op ∧ nav_step total pos op ≤ total := by
  cases op <;> simp [nav_step] <;> omega

/-- Folding navigation steps from any in-range position stays in range. -/
theorem foldl_nav_step_bounds (total : Int) (htotal : 0 ≤ total) :
    ∀ (ops : List NavOp) (pos : Int), 0 ≤ pos → pos ≤ total →
    0 ≤ ops.foldl (nav_step total) pos ∧
      ops.foldl (nav_step total) pos ≤ total := by
  intro ops
  induction ops with
  | nil => intro pos h0 h1; simpa using ⟨h0, h1⟩
  | cons op ops ih =>
    intro pos h0 h1
    have hstep := nav_step_bounds total pos op htotal h0 h1
    simpa using ih (nav_step total pos op) hstep.1 hstep.2

/-- C5: from position 0, every finite sequence of navigation operations
leaves the playback position inside [0, total]; auto-advance at the
ceiling is a no-op and reset returns to 0 from any position. -/
theorem playback_position_invariant :
    ∀ (total : Int) (ops : List NavOp), 0 ≤ total →
    (0 ≤ run_nav total ops ∧ run_nav total ops ≤ total) ∧
    nav_step total total NavOp.advance = total ∧
    (∀ pos : Int, nav_step total pos NavOp.reset = 0) := by
  intro total ops htotal
  refine ⟨foldl_nav_step_bounds total htotal ops 0 le_rfl htotal, ?_, ?_⟩
  · simp [nav_step]
  · intro pos; rfl

/-- Witness for C5 on a concrete operation sequence with total = 3,
scrubbing far past the ceiling on the way. -/
theorem playback_position_invariant_witness :
    0 ≤ run_nav 3 [NavOp.advance, NavOp.scrub 99, NavOp.advance,
      NavOp.reset, NavOp.advance] ∧
    run_nav 3 [NavOp.advance, NavOp.scrub 99, NavOp.advance,
      NavOp.reset, NavOp.advance] ≤ 3 :=
  (playback_position_invariant 3 [NavOp.advance, NavOp.scrub 99,
      NavOp.advance, NavOp.reset, NavOp.advance] (by decide)).1

/-- C6: resolve is total; a private-range identifier resolves to the
(0,0) sentinel whatever the external lookup would have returned, and for
an identifier outside the static table every failing lookup outcome
(timeout, network error, malformed response, missing loc field) yields
the (0,0) sentinel. -/
theorem real_geolocate_spec :
    (∀ (ip : String) (resp : LookupResult), is_private_ip ip = true →
      real_geolocate ip resp = (0, 0)) ∧
    (∀ (ip : String) (resp : LookupResult), resp.isFailure = true →
      STATIC_IP_MAP.lookup ip = none → real_geolocate ip resp = (0, 0)) := by
  constructor
  · intro ip resp h
    simp [real_geolocate, h]
  · intro ip resp hf hl
    by_cases hp : is_private_ip ip
    · simp [real_geolocate, hp]
    · rcases resp with _ | _ | _ | ⟨la, lo⟩ <;>
        first
          | (simp [real_geolocate, hp, hl]; done)
          | simp [LookupResult.isFailure] at hf

/-- Witness for C6: a private address with a network error, and an
unknown public address with a missing loc field, both resolve to the
sentinel. -/
theorem real_geolocate_spec_witness :
    real_geolocate "10.0.0.7" LookupResult.netError = (0, 0) ∧
    real_geolocate "203.0.113.9" LookupResult.noLoc = (0, 0) :=
  ⟨real_geolocate_spec.1 "10.0.0.7" LookupResult.netError (by decide),
   real_geolocate_spec.2 "203.0.113.9" LookupResult.noLoc (by decide)
     (by decide)⟩

/-- C7, evaluated at the failing input: a visible alert carrying the
(0,0) sentinel gets no marker (src/Kratos28_app.py line 210) and is
dropped from the Kratos27 heatmap (src/Kratos27_app.py line 225), but the
Kratos28 heatmap input (src/Kratos28_app.py line 221, dropna only) still
contains the sentinel pair. -/
theorem sentinel_alert_heat_marker_evaluation :
    marker_points [sentinel_alert] = [] ∧
    heat_points_27 [sentinel_alert] = [] ∧
    heat_points_28 [sentinel_alert] = [(0, 0)] := by decide

/-- C8: validation rejects a batch exactly when some required column is
absent; when all five are present the batch passes through unchanged,
extra columns included, and any successful validation returns the input
batch itself. -/
theorem validate_required_cols_spec :
    ∀ b : RawBatch,
    ((validate b = none) ↔ ∃ c ∈ required_cols, c ∉ b.cols) ∧
    ((validate b = some b) ↔ ∀ c ∈ required_cols, c ∈ b.cols) ∧
    (∀ b', validate b = some b' → b' = b) := by
  intro b
  by_cases h : required_cols.all (fun c => b.cols.contains c) = true
  · have hmem : ∀ c ∈ required_cols, c ∈ b.cols := by simpa using h
    have hv : validate b = some b := by unfold validate; rw [if_pos h]
    refine ⟨⟨?_, ?_⟩, ⟨fun _ => hmem, fun _ => hv⟩, ?_⟩
    · intro hnone
      rw [hv] at hnone
      exact Option.noConfusion hnone
    · rintro ⟨c, hc, hnc⟩
      exact absurd (hmem c hc) hnc
    · intro b' hb'
      rw [hv] at hb'
      exact (Option.some.inj hb').symm
  · have hnmem : ¬ ∀ c ∈ required_cols, c ∈ b.cols := by simpa using h
    have hex : ∃ c ∈ required_cols, c ∉ b.cols := by
      push_neg at hnmem
      exact hnmem
    have hv : validate b = none := by unfold validate; rw [if_neg h]
    refine ⟨⟨fun _ => hex, fun _ => hv⟩, ⟨?_, ?_⟩, ?_⟩
    · intro hsome
      rw [hv] at hsome
      exact Option.noConfusion hsome
    · intro hall
      exact absurd hall hnmem
    · intro b' hb'
      rw [hv] at hb'
      exact Option.noConfusion hb'

/-- Witness for C8: a batch with the five required columns and one extra
column passes through unchanged. -/
theorem validate_required_cols_spec_witness :
    validate good_batch = some good_batch :=
  ((validate_required_cols_spec good_batch).2.1).mpr (by decide)

/-- C9: on a batch of fewer than two rows the scorer labels every row
inlier and the alert subset is empty, for every per-row score assignment
and every contamination fraction: a single score equals its own
contamination percentile, so its decision value is zero, which sklearn
labels +1. -/
theorem iforest_small_batch_all_inlier :
    ∀ (rows : List LogRow) (score : LogRow → ℚ) (c : ℚ),
    rows.length < 2 →
    (∀ l ∈ iforest_labels (rows.map score) c, l = 1) ∧
    alerts_of rows (iforest_labels (rows.map score) c) = [] := by
  intro rows score c hlen
  rcases rows with _ | ⟨r, _ | ⟨r₂, rs⟩⟩
  · simp [iforest_labels, alerts_of]
  · constructor
    · intro l hl
      simp [iforest_labels, np_percentile_singleton] at hl
      exact hl
    · simp [alerts_of, iforest_labels, np_percentile_singleton]
  · simp only [List.length_cons] at hlen
    omega

/-- Witness for C9 on a singleton batch. -/
theorem iforest_small_batch_all_inlier_witness :
    alerts_of [sample_row]
      (iforest_labels ([sample_row].map (fun _ => (0 : ℚ))) (1/20)) = [] :=
  (iforest_small_batch_all_inlier [sample_row] (fun _ => 0) (1/20)
    (by decide)).2

/-- C1 counterexample: in a concrete two-row batch the scorer flags the
row with bytes_sent = 5000 and failed_logins = 10 — both inside the
injected-anomaly ranges [5000,10000] and [10,50] — as the outlier, yet
the severity classifier assigns it Medium, not High, because
failed_logins = 10 is not above 20 and bytes_sent = 5000 is not above
5000. -/
theorem injected_scenario_counterexample :
    ([injected_low_row, background_row].zip
      (iforest_labels
        ([injected_low_row, background_row].map
          (fun r => (r.failed_logins : ℚ))) (1/2)))
      = [(injected_low_row, -1), (background_row, 1)] ∧
    5000 ≤ injected_low_row.bytes_sent ∧ injected_low_row.bytes_sent ≤ 10000 ∧
    10 ≤ injected_low_row.failed_logins ∧ injected_low_row.failed_logins ≤ 50 ∧
    classify_severity injected_low_row.bytes_sent
      injected_low_row.failed_logins = Severity.Medium := by
  have hscores : [injected_low_row, background_row].map
      (fun r => (r.failed_logins : ℚ)) = [10, 60] := by
    norm_num [injected_low_row, background_row]
  have hoff : np_percentile [(10 : ℚ), 60] (100 * (1/2)) = 35 := by
    norm_num [np_percentile, List.insertionSort, List.orderedInsert,
      List.getD]
  have hlabels : iforest_labels [(10 : ℚ), 60] (1/2) = [-1, 1] := by
    simp only [iforest_labels, hoff]
    norm_num
  rw [hscores, hlabels]
  exact ⟨rfl, by decide, by decide, by decide, by decide, by decide⟩

/-- C1 amended: a flagged record inside the injected ranges is never Low;
it is High exactly when failed_logins exceeds 20 and bytes_sent exceeds
5000, and Medium otherwise. -/
theorem injected_range_severity :
    ∀ b f : Int, 5000 ≤ b → b ≤ 10000 → 10 ≤ f → f ≤ 50 →
    classify_severity b f ≠ Severity.Low ∧
    (classify_severity b f = Severity.High ↔ 20 < f ∧ 5000 < b) := by
  intro b f hb₁ hb₂ hf₁ hf₂
  unfold classify_severity
  split_ifs with h₁ h₂
  · simp_all
  · simp_all
  · simp_all
    omega

/-- Witness for the amended C1 at a concrete in-range pair. -/
theorem injected_range_severity_witness :
    classify_severity 6000 30 = Severity.High :=
  ((injected_range_severity 6000 30 (by decide) (by decide) (by decide)
    (by decide)).2).mpr (by decide)

end Kratos
